import Mathlib

/-!
Verification of the Sift adaptive analysis orchestrator and its Monte Carlo
simulation engine (backend/Agent/orchestrator.py, backend/Agent/synthesizer.py,
backend/Tools/simulator.py, backend/Tools/subscription_hunter.py).

The Python code is shallowly embedded: dataframes become lists of transaction
records, floats become exact rationals (ℚ), pandas groupbys become explicit
key-extraction plus filtering, and the numpy random draws consumed by the
Monte Carlo simulator are passed in as an explicit `samples` argument (the
randomness is universally quantified in every theorem about the simulator).

Two systematic representation choices, noted where they are used:
 - Python `round(x, n)` is banker's rounding; `pyRound` implements half-even
   rounding exactly on ℚ.
 - pandas sample standard deviations are irrational in general, so wherever
   the source compares a standard deviation against a bound both sides are
   squared (std/mean > 0.35 becomes 400·var > 49·mean², etc.), and the fitted
   per-category distribution carries the squared std (`stdSq`).  Positivity
   and ordering facts are invariant under this encoding.
-/

namespace Sift

/-! ### Numeric helpers -/

/-- Python `round(q)` to an integer: round-half-to-even (banker's rounding),
exactly as Python's built-in `round` behaves on ties. -/
def pyRound (q : ℚ) : ℤ :=
  let f := ⌊q⌋
  let r := q - f
  if r < 1/2 then f
  else if 1/2 < r then f + 1
  else if 2 ∣ f then f else f + 1

/-- Python `round(q, 2)` on ℚ. -/
def round2 (q : ℚ) : ℚ := (pyRound (q * 100) : ℚ) / 100

/-- Python `round(q, 1)` on ℚ. -/
def round1 (q : ℚ) : ℚ := (pyRound (q * 10) : ℚ) / 10

/-- Python `max(l)` for a non-empty list (call sites guard emptiness). -/
def listMax (l : List ℚ) : ℚ := l.foldl max (l.headD 0)

/-- Python `min(l)` for a non-empty list (call sites guard emptiness). -/
def listMin (l : List ℚ) : ℚ := l.foldl min (l.headD 0)

/-- pandas `.mean()`; the empty case (pandas NaN) is guarded at call sites,
where ℚ gives `0/0 = 0`. -/
def meanQ (l : List ℚ) : ℚ := l.sum / l.length

/-- pandas `.std()² = .var()` with `ddof = 1` (sample variance).  The source
compares standard deviations; we compare their squares (see file header).
A single-element list (pandas NaN) is guarded at call sites. -/
def sampleVar (l : List ℚ) : ℚ :=
  (l.map (fun x => (x - meanQ l) * (x - meanQ l))).sum / ((l.length : ℚ) - 1)

/-- ASCII lower-casing of a character, as Python `str.lower` acts on the
ASCII-only merchant/category strings this codebase uses. -/
def lowerChar (c : Char) : Char :=
  if 'A' ≤ c ∧ c ≤ 'Z' then Char.ofNat (c.toNat + 32) else c

/-- Python `s.lower()` (ASCII). -/
def strLower (s : String) : String := ⟨s.data.map lowerChar⟩

/-- Distinct keys of a list in first-occurrence order.  pandas `groupby`
iterates group keys in sorted order; every use below either sorts the
resulting rows again afterwards or groups by already-sorted integer keys,
so only the order among ties can differ, and no proved statement depends
on it. -/
def uniqAux {α : Type} [DecidableEq α] : List α → List α → List α
  | _, [] => []
  | seen, k :: rest =>
    if k ∈ seen then uniqAux seen rest else k :: uniqAux (k :: seen) rest

def uniqKeys {α : Type} [DecidableEq α] (l : List α) : List α := uniqAux [] l

/-- Consecutive differences, `series.diff().dropna()` of an already-sorted
series. -/
def consecDiffs : List ℤ → List ℤ
  | [] => []
  | [_] => []
  | a :: b :: rest => (b - a) :: consecDiffs (b :: rest)

/-- pandas `.mode().iloc[0]`: the smallest among the most frequent values
(pandas returns the modes sorted ascending). -/
def modeMin (l : List ℕ) : ℕ :=
  let cands := (uniqKeys l).insertionSort (· ≤ ·)
  cands.foldl (fun best c => if l.count c > l.count best then c else best) (cands.headD 0)

/-! ### Dates and transactions -/

/-- A calendar date.  `toDays` gives days since 1970-01-01 (proleptic
Gregorian, the civil-from-days algorithm), matching pandas datetime
subtraction `.days`. -/
structure Date where
  y : ℤ
  m : ℕ
  d : ℕ
deriving DecidableEq

def Date.toDays (dt : Date) : ℤ :=
  let y2 : ℤ := if dt.m ≤ 2 then dt.y - 1 else dt.y
  let era : ℤ := Int.fdiv y2 400
  let yoe : ℤ := y2 - era * 400
  let mp : ℕ := (dt.m + 9) % 12
  let doy : ℤ := ((153 * mp + 2) / 5 + dt.d : ℕ) - 1
  let doe : ℤ := yoe * 365 + Int.fdiv yoe 4 - Int.fdiv yoe 100 + doy
  era * 146097 + doe - 719468

/-- pandas `to_period("M")` as a single orderable integer key. -/
def Date.monthKey (dt : Date) : ℤ := dt.y * 12 + ((dt.m : ℤ) - 1)

/-- One row of the canonical transaction table.  `category = none` models a
NaN category cell. -/
structure Txn where
  date : Date
  amount : ℚ
  merchant : String
  category : Option String
deriving DecidableEq

/-- pandas `df["category"].fillna("").str.lower()` for one row. -/
def Txn.catLower (t : Txn) : String := strLower (t.category.getD "")

/-- The filter `~category.fillna("").str.lower().isin(["income","transfer",""])`
shared by the profiler and the simulator. -/
def spendFilter (df : List Txn) : List Txn :=
  df.filter fun t =>
    !(t.catLower == "income" || t.catLower == "transfer" || t.catLower == "")

/-- Sorted distinct month keys of a table (pandas month groupby key order). -/
def monthsOf (df : List Txn) : List ℤ :=
  (uniqKeys (df.map (fun t => t.date.monthKey))).insertionSort (· ≤ ·)

/-- Sum of `amount` over the rows of a given month. -/
def monthSum (df : List Txn) (k : ℤ) : ℚ :=
  ((df.filter (fun t => t.date.monthKey == k)).map Txn.amount).sum

/-- Source `df.groupby(month)["amount"].sum()` as a list in month order. -/
def monthlySums (df : List Txn) : List ℚ :=
  (monthsOf df).map (monthSum df)

/-! ### Tools/subscription_hunter.py -/

/-- Source `HABIT_CATEGORIES` (subscription_hunter.py line 20). -/
def HABIT_CATEGORIES : List String :=
  ["dining", "groceries", "delivery", "shopping", "transport"]

/-- One entry of the `detect_recurring_charges` result list. -/
structure RecurringCharge where
  merchant : String
  category : Option String
  frequency : String
  day_of_month : ℕ
  amount : ℚ
  annual_cost : ℚ
  confidence : ℚ
  active : Bool
  n_charges : ℕ
deriving DecidableEq

/-- The group of rows for one merchant, `df.groupby("merchant")` (pandas
preserves original row order within a group). -/
def merchantGroup (df : List Txn) (m : String) : List Txn :=
  df.filter fun t => t.merchant == m

/-- The body of the `detect_recurring_charges` loop for one merchant group
(subscription_hunter.py lines 32-107); `none` models `continue`.
Std comparisons are squared: `std/mean > 0.35 ↔ 400·var > 49·mean²`,
`cv ≤ 0.05 ↔ 400·var ≤ mean²`, `cv ≤ 0.10 ↔ 100·var ≤ mean²`,
`gap_std < 5 ↔ gap_var < 25` (all sides non-negative, `mean ≥ 3 > 0`). -/
def detectForMerchant (df : List Txn) (m : String) : Option RecurringCharge :=
  let group := merchantGroup df m
  if group.length < 2 then none else
  let sortedDays := (group.map (fun t => t.date.toDays)).insertionSort (· ≤ ·)
  let amts := group.map Txn.amount
  let mu := meanQ amts
  if mu < 3 then none else
  let v := sampleVar amts
  if 0 < mu ∧ 400 * v > 49 * (mu * mu) then none else
  let gaps := (consecDiffs sortedDays).map (fun g => (g : ℚ))
  let avgGap := meanQ gaps
  let gapVar := if 1 < gaps.length then sampleVar gaps else 0
  let freq : Option String :=
    if 25 ≤ avgGap ∧ avgGap ≤ 35 ∧ gapVar < 25 then some "monthly"
    else if 350 ≤ avgGap ∧ avgGap ≤ 380 then some "yearly"
    else if 12 ≤ avgGap ∧ avgGap ≤ 16 then some "biweekly"
    else none
  match freq with
  | none => none
  | some f =>
    let cat := (group.headD ⟨⟨0, 1, 1⟩, 0, "", none⟩).category
    let catL := strLower (cat.getD "")
    if catL ∈ HABIT_CATEGORIES ∧ 100 * v > mu * mu then none else
    let dayOfMonth := modeMin (group.map (fun t => t.date.d))
    let nCycles := group.length
    let conf : ℚ :=
      if 3 ≤ nCycles ∧ 400 * v ≤ mu * mu then 95/100
      else if 3 ≤ nCycles ∧ 100 * v ≤ mu * mu then 90/100
      else if 3 ≤ nCycles then 80/100
      else 70/100
    let annual := mu * (if f = "monthly" then 12 else if f = "biweekly" then 26 else 1)
    some { merchant := m, category := cat, frequency := f, day_of_month := dayOfMonth,
           amount := round2 mu, annual_cost := round2 annual, confidence := conf,
           active := true, n_charges := nCycles }

/-- Source `detect_recurring_charges` (subscription_hunter.py lines 23-117): the
per-merchant loop followed by `results.sort(key=annual_cost, reverse=True)`.
Merchant groups are visited in first-occurrence order (pandas: sorted order);
the final stable sort by annual cost makes the difference invisible except
among entries with equal annual cost. -/
def detectRecurringCharges (df : List Txn) : List RecurringCharge :=
  ((uniqKeys (df.map Txn.merchant)).filterMap (detectForMerchant df)).insertionSort
    (fun a b => b.annual_cost ≤ a.annual_cost)

/-! ### Tools/simulator.py -/

/-- A fitted per-category distribution.  The source stores `{"mean", "std"}`;
`stdSq` carries `std²` (see file header), so the source's `std > 0` is
exactly `stdSq > 0` here. -/
structure Dist where
  mean : ℚ
  stdSq : ℚ
deriving DecidableEq

/-- Total of the monthly recurring charges
(`fixed_monthly` in `_build_category_distributions`). -/
def fixedMonthlyOf (recurring : List RecurringCharge) : ℚ :=
  ((recurring.filter (fun r => r.frequency == "monthly")).map RecurringCharge.amount).sum

/-- Source `recurring_by_cat.get(cat, 0)`: monthly recurring total attributed to one
category (the source builds a dict keyed by `r.get("category", "Unknown")`;
summing the matching entries is the same lookup). -/
def recurringByCat (recurring : List RecurringCharge) (cat : String) : ℚ :=
  ((recurring.filter
      (fun r => r.frequency == "monthly" && r.category.getD "Unknown" == cat)).map
    RecurringCharge.amount).sum

/-- One pivot column: per-month totals for `cat` over the months of
`spendDf`, `fill_value=0` (simulator.py lines 45-48). -/
def pivotColumn (spendDf : List Txn) (months : List ℤ) (cat : String) : List ℚ :=
  months.map fun k =>
    ((spendDf.filter (fun t => t.date.monthKey == k && t.category.getD "" == cat)).map
      Txn.amount).sum

/-- Source `_build_category_distributions` (simulator.py lines 34-80).  Pivot
columns are visited in first-occurrence order (pandas: sorted category
names); no proved statement depends on the order of the returned
association list. -/
def buildCategoryDistributions (df : List Txn) (recurring : List RecurringCharge) :
    List (String × Dist) × ℚ :=
  let spendDf := spendFilter df
  let months := monthsOf spendDf
  let cats := uniqKeys (spendDf.map (fun t => t.category.getD ""))
  let fixedMonthly := fixedMonthlyOf recurring
  let dists := cats.filterMap fun cat =>
    if strLower cat ∈ ["income", "transfer"] then none else
    let col := pivotColumn spendDf months cat
    let adjMean := max 0 (meanQ col - recurringByCat recurring cat)
    -- source: `float(stds[cat]) if len(pivot) >= 3 and stds[cat] > 0 else adj_mean * 0.10`
    -- (squared encoding: the fallback std `adj_mean * 0.10` squares to `(adj_mean/10)²`)
    let stdSq := if 3 ≤ months.length ∧ 0 < sampleVar col then sampleVar col
      else (adjMean * (1/10)) * (adjMean * (1/10))
    some (cat, Dist.mk adjMean stdSq)
  (dists, fixedMonthly)

/-- Source `_get_monthly_income` (simulator.py lines 83-96). -/
def getMonthlyIncome (df : List Txn) : ℚ :=
  let incomeDf := df.filter fun t => t.catLower == "income"
  if incomeDf.isEmpty then 0
  else meanQ (monthlySums incomeDf)

/-- Source `_get_monthly_spending` (simulator.py lines 411-422). -/
def getMonthlySpending (df : List Txn) : ℚ :=
  let spendDf := spendFilter df
  if spendDf.isEmpty then 0
  else meanQ (monthlySums spendDf)

/-! #### numpy percentiles -/

/-- Linear interpolation into an already-sorted sample at fractional
position `pos` (numpy's default `linear` method).  The out-of-range default
for the upper neighbour is the lower value itself, which never matters for
`0 ≤ pos ≤ n-1`: the fraction is zero exactly when the upper index would
fall out of range. -/
def interpSorted (s : List ℚ) (pos : ℚ) : ℚ :=
  s.getD (⌊pos⌋.toNat) 0 +
    (pos - (⌊pos⌋ : ℚ)) *
      (s.getD (⌊pos⌋.toNat + 1) (s.getD (⌊pos⌋.toNat) 0) - s.getD (⌊pos⌋.toNat) 0)

/-- Source `np.percentile(xs, p)`: sort, then interpolate at `p/100 * (n-1)`. -/
def npPercentile (p : ℚ) (xs : List ℚ) : ℚ :=
  let s := xs.insertionSort (· ≤ ·)
  interpSorted s (p / 100 * ((s.length : ℚ) - 1))

/-! #### run_projection -/

/-- A scenario modifier (`scenario` dict of simulator.py). -/
inductive Scen where
  | job_loss : Scen
  | expense_increase : String → ℚ → Scen
  | subscription_purge : Scen
deriving DecidableEq

def Scen.name : Scen → String
  | .job_loss => "job_loss"
  | .expense_increase _ _ => "expense_increase"
  | .subscription_purge => "subscription_purge"

/-- The percentile bands `{10: [...], 25: [...], 50: [...], 75: [...], 90: [...]}`. -/
structure Bands where
  p10 : List ℚ
  p25 : List ℚ
  p50 : List ℚ
  p75 : List ℚ
  p90 : List ℚ
deriving DecidableEq

structure Baseline where
  monthly_income : ℚ
  monthly_spending : ℚ
  fixed_costs : ℚ
  variable_spending : ℚ
deriving DecidableEq

structure ProjRes where
  monthly_net : Bands
  cumulative_net : Bands
  baseline : Baseline
  scen_applied : Option String
  has_income : Bool
  n_sims : ℕ
  months : ℕ
deriving DecidableEq

/-- Essential categories exempt from the purge inside `run_projection`
(simulator.py line 157). -/
def PROJ_PURGE_ESSENTIALS : List String :=
  ["bills & utilities", "insurance", "rent & housing"]

/-- The monthly recurring total removed by the `subscription_purge` scenario
(simulator.py lines 158-163). -/
def purgedAmount (recurring : List RecurringCharge) : ℚ :=
  ((recurring.filter fun r =>
      r.frequency == "monthly" &&
      !((strLower (r.category.getD "")) ∈ PROJ_PURGE_ESSENTIALS)).map
    RecurringCharge.amount).sum

/-- Column `t` of a sims × months matrix. -/
def matrixColumn (rows : List (List ℚ)) (t : ℕ) : List ℚ :=
  rows.map fun row => row.getD t 0

/-- Per-month percentile list: `np.percentile(M, p, axis=0).round(2).tolist()`. -/
def pctList (months : ℕ) (p : ℚ) (rows : List (List ℚ)) : List ℚ :=
  (List.range months).map fun t => round2 (npPercentile p (matrixColumn rows t))

def bandsOf (months : ℕ) (rows : List (List ℚ)) : Bands :=
  ⟨pctList months 10 rows, pctList months 25 rows, pctList months 50 rows,
   pctList months 75 rows, pctList months 90 rows⟩

/-- Cumulative sums along one simulation row (`np.cumsum(..., axis=1)`). -/
def cumsum (row : List ℚ) : List ℚ := (row.scanl (· + ·) 0).tail

/-- Source `run_projection` (simulator.py lines 104-195).  `samples` stands for the
raw `np.random.normal` draw of shape (n_sims, months, n_categories); the
source's clip-at-zero and scenario scaling are applied to it here, and every
theorem below quantifies over all values of `samples`.  `none` models the
`{"error": ...}` return. -/
def runProjection (df : List Txn) (months : ℕ) (samples : List (List (List ℚ)))
    (scen : Option Scen) : Option ProjRes :=
  let recurring := detectRecurringCharges df
  let bd := buildCategoryDistributions df recurring
  let dists := bd.1
  let fixedMonthly := bd.2
  let income := getMonthlyIncome df
  if dists.isEmpty then none else
  let catNames := dists.map Prod.fst
  let clipped := samples.map fun sim => sim.map fun mvals => mvals.map (fun x => max x 0)
  let scaled := match scen with
    | some (.expense_increase target mult) =>
        clipped.map fun (sim : List (List ℚ)) => sim.map fun mvals =>
          List.zipWith (fun x c => if strLower c == strLower target then x * mult else x)
            mvals catNames
    | _ => clipped
  let effIncome := if scen = some .job_loss then 0 else income
  let effFixed := if scen = some .subscription_purge
    then fixedMonthly - purgedAmount recurring else fixedMonthly
  let monthlyNetRows := scaled.map fun (sim : List (List ℚ)) =>
    sim.map fun mvals => effIncome - (mvals.sum + effFixed)
  let cumRows := monthlyNetRows.map cumsum
  let totalVariable := (dists.map (fun cd => cd.2.mean)).sum
  some { monthly_net := bandsOf months monthlyNetRows,
         cumulative_net := bandsOf months cumRows,
         baseline := ⟨round2 income, round2 (totalVariable + fixedMonthly),
                      round2 fixedMonthly, round2 totalVariable⟩,
         scen_applied := scen.map Scen.name,
         has_income := decide (0 < income),
         n_sims := samples.length,
         months := months }

/-! #### Runway and stress tests -/

/-- Source `_find_crossover` (simulator.py lines 425-435): the interpolated month at
which a cumulative-net series first goes negative, or the series length. -/
def findCrossoverGo (i : ℕ) (prev : ℚ) : List ℚ → ℚ
  | [] => (i : ℚ)
  | v :: rest =>
    if v < 0 then (if prev ≠ v then (i : ℚ) + prev / (prev - v) else (i : ℚ))
    else findCrossoverGo (i + 1) v rest

def findCrossover : List ℚ → ℚ
  | [] => 0
  | v :: rest => if v < 0 then 0 else findCrossoverGo 1 v rest

/-- Source `ESSENTIAL_CATEGORIES` (simulator.py lines 203-205). -/
def ESSENTIAL_CATEGORIES : List String :=
  ["groceries", "grocery", "rent & housing", "rent", "mortgage",
   "healthcare", "medical", "insurance", "utilities",
   "bills & utilities", "childcare", "education"]

/-- Source `cat_monthly` of `_stress_job_loss` (simulator.py line 262): category
total divided by the table-wide distinct month count (floored at 1). -/
def catAvg (df : List Txn) (cat : String) : ℚ :=
  let spendDf := spendFilter df
  ((spendDf.filter (fun t => t.category.getD "" == cat)).map Txn.amount).sum /
    (max 1 (monthsOf spendDf).length : ℕ)

structure CutEntry where
  category : String
  monthly_avg : ℚ
  potential_savings : ℚ
deriving DecidableEq

/-- The `categories_to_cut` block of `_stress_job_loss` (simulator.py lines
258-274 and the `[:5]` truncation at line 281): rank categories by monthly
average descending, drop essentials and averages under $20, keep at most 5.
The source's skip-and-append loop is the filter-then-map below. -/
def jobLossCategoriesToCut (df : List Txn) : List CutEntry :=
  let spendDf := spendFilter df
  let cats := uniqKeys (spendDf.map (fun t => t.category.getD ""))
  let catMonthly := cats.map fun c => (c, catAvg df c)
  let sorted := catMonthly.insertionSort (fun a b => b.2 ≤ a.2)
  ((sorted.filter fun ca =>
      !(strLower ca.1 ∈ ESSENTIAL_CATEGORIES) && !(ca.2 < 20)).map fun ca =>
    CutEntry.mk ca.1 (round2 ca.2) (round2 (ca.2 * (5/10)))).take 5

/-- Months-of-runway values: a finite number of months or the
`float('inf')` sentinel of `calculate_runway`. -/
inductive RunwayVal where
  | fin : ℚ → RunwayVal
  | inf : RunwayVal
deriving DecidableEq

structure RunwayRes where
  months_of_runway : RunwayVal
  ci_low : RunwayVal
  ci_high : RunwayVal
  monthly_burn_rate : ℚ
  monthly_income : ℚ
  net_monthly : ℚ
deriving DecidableEq

/-- Source `calculate_runway` (simulator.py lines 354-408).  `samples` feeds the
internal 36-month Monte Carlo projection (see `runProjection`). -/
def calculateRunway (df : List Txn) (samples : List (List (List ℚ))) : RunwayRes :=
  let income := getMonthlyIncome df
  let spending := getMonthlySpending df
  if income = 0 ∧ 0 < spending then
    ⟨.fin 0, .fin 0, .fin 0, round2 spending, 0, round2 (-spending)⟩
  else
  let net := income - spending
  if 0 ≤ net then
    ⟨.inf, .inf, .inf, 0, round2 income, round2 net⟩
  else
    match runProjection df 36 samples none with
    | none =>
      let runway := if 0 < spending then income / spending * 30 else 0
      ⟨.fin (round1 runway), .fin (round1 (runway * (7/10))), .fin (round1 (runway * (13/10))),
       round2 (-net), round2 income, round2 net⟩
    | some proj =>
      ⟨.fin (round1 (findCrossover proj.cumulative_net.p50)),
       .fin (round1 (findCrossover proj.cumulative_net.p90)),
       .fin (round1 (findCrossover proj.cumulative_net.p10)),
       round2 (-net), round2 income, round2 net⟩

/-- Essential categories exempt from the purge in `_stress_subscription_purge`
(simulator.py line 316; note: a different set than `PROJ_PURGE_ESSENTIALS`). -/
def STRESS_PURGE_ESSENTIALS : List String :=
  ["bills & utilities", "insurance", "rent & housing", "education", "health"]

/-- The compounding loop of `_stress_subscription_purge` (simulator.py lines
329-335): `total = (total + monthly) * (1 + 0.04/12)` iterated once per
month. -/
def compoundedTotal (monthly : ℚ) : ℕ → ℚ
  | 0 => 0
  | k + 1 => (compoundedTotal monthly k + monthly) * (1 + (4/100) / 12)

/-- The discretionary monthly subscriptions of `_stress_subscription_purge`
(simulator.py lines 318-322). -/
def discretionarySubs (recurring : List RecurringCharge) : List RecurringCharge :=
  recurring.filter fun r =>
    r.frequency == "monthly" &&
    !((strLower (r.category.getD "")) ∈ STRESS_PURGE_ESSENTIALS)

structure PurgeRes where
  subscriptions_purged : List (String × ℚ)
  monthly_savings : ℚ
  annual_savings : ℚ
  compounded_1yr : ℚ
  compounded_3yr : ℚ
  compounded_5yr : ℚ
  projection : Option ProjRes
deriving DecidableEq

/-- Source `_stress_subscription_purge` (simulator.py lines 312-346). -/
def stressSubscriptionPurge (df : List Txn) (samples : List (List (List ℚ))) : PurgeRes :=
  let recurring := detectRecurringCharges df
  let subs := discretionarySubs recurring
  let monthlySavings := (subs.map RecurringCharge.amount).sum
  { subscriptions_purged := subs.map fun r => (r.merchant, r.amount),
    monthly_savings := round2 monthlySavings,
    annual_savings := round2 (monthlySavings * 12),
    compounded_1yr := round2 (compoundedTotal monthlySavings 12),
    compounded_3yr := round2 (compoundedTotal monthlySavings 36),
    compounded_5yr := round2 (compoundedTotal monthlySavings 60),
    projection := runProjection df 12 samples (some .subscription_purge) }

/-! ### Agent/orchestrator.py — data profiler -/

/-- Python `int(q)`: truncation toward zero. -/
def pyInt (q : ℚ) : ℤ := if 0 ≤ q then ⌊q⌋ else -⌊-q⌋

/-- Source `period.strftime("%b")` for a month key. -/
def monthAbbrevOfKey (k : ℤ) : String :=
  match (k % 12).toNat with
  | 0 => "Jan" | 1 => "Feb" | 2 => "Mar" | 3 => "Apr" | 4 => "May" | 5 => "Jun"
  | 6 => "Jul" | 7 => "Aug" | 8 => "Sep" | 9 => "Oct" | 10 => "Nov" | _ => "Dec"

/-- pandas `idxmax` over a keyed series: first key attaining the maximum. -/
def idxMaxPair (pairs : List (ℤ × ℚ)) : ℤ × ℚ :=
  pairs.foldl (fun best p => if best.2 < p.2 then p else best) (pairs.headD (0, 0))

/-- pandas `idxmin` over a keyed series: first key attaining the minimum. -/
def idxMinPair (pairs : List (ℤ × ℚ)) : ℤ × ℚ :=
  pairs.foldl (fun best p => if p.2 < best.2 then p else best) (pairs.headD (0, 0))

def intListMax (l : List ℤ) : ℤ := l.foldl max (l.headD 0)

def intListMin (l : List ℤ) : ℤ := l.foldl min (l.headD 0)

/-- Source `df["amount"] = df["amount"].abs()`. -/
def absTable (df : List Txn) : List Txn := df.map fun t => { t with amount := |t.amount| }

def pad2 (n : ℕ) : String := if n < 10 then "0" ++ toString n else toString n

/-- Source `str(timestamp.date())`. -/
def isoDate (dt : Date) : String :=
  toString dt.y ++ "-" ++ pad2 dt.m ++ "-" ++ pad2 dt.d

structure MonthStat where
  amount : ℤ
  month : String
deriving DecidableEq

structure SwingCat where
  name : String
  min : ℚ
  max : ℚ
deriving DecidableEq

/-- The dict returned by `profile_data` (orchestrator.py lines 149-193). -/
structure Profile where
  transaction_count : ℕ
  date_range_days : ℤ
  category_count : ℕ
  categories : List String
  has_income : Bool
  start_date : String
  end_date : String
  total_spent : ℚ
  monthly_totals : List ℚ
  months_count : ℕ
  monthly_average : ℚ
  highest_month : MonthStat
  lowest_month : MonthStat
  recent_3mo_avg : ℚ
  spending_trend : String
  biggest_swing_category : SwingCat
  monthly_income : ℚ
  monthly_spending : ℚ
  savings_rate : ℚ
deriving DecidableEq

/-- The dict returned by `_compute_spending_metrics` (orchestrator.py lines
41-146). -/
structure SpendMetrics where
  total_spent : ℚ
  monthly_totals : List ℚ
  months_count : ℕ
  monthly_average : ℚ
  highest_month : MonthStat
  lowest_month : MonthStat
  recent_3mo_avg : ℚ
  spending_trend : String
  biggest_swing_category : SwingCat
  monthly_income : ℚ
  monthly_spending : ℚ
  savings_rate : ℚ
deriving DecidableEq

/-- Source `_compute_spending_metrics` (orchestrator.py lines 41-146).  Category
columns are visited in first-occurrence order (pandas: sorted), which can
differ from the source only in the tie-break of `biggest_swing_category`. -/
def computeSpendingMetrics (df : List Txn) : SpendMetrics :=
  let dfSpend := spendFilter (absTable df)
  let totalSpent := (dfSpend.map Txn.amount).sum
  let months := monthsOf dfSpend
  let monthPairs := months.map fun k => (k, monthSum dfSpend k)
  let monthly := monthPairs.map Prod.snd
  let monthsCount := monthly.length
  let monthlyAvg := if 0 < monthsCount then meanQ monthly else 0
  let highest := if 0 < monthsCount then
      let hp := idxMaxPair monthPairs
      MonthStat.mk (pyInt hp.2) (monthAbbrevOfKey hp.1)
    else MonthStat.mk 0 "N/A"
  let lowest := if 0 < monthsCount then
      let lp := idxMinPair monthPairs
      MonthStat.mk (pyInt lp.2) (monthAbbrevOfKey lp.1)
    else MonthStat.mk 0 "N/A"
  let recent3 := if 3 ≤ monthsCount then meanQ (monthly.drop (monthsCount - 3)) else monthlyAvg
  let swing := if 3 ≤ monthsCount then
      let cols := uniqKeys (dfSpend.map (fun t => t.category.getD ""))
      if 0 < cols.length then
        let ranges := cols.map fun c =>
          let col := pivotColumn dfSpend months c
          (c, (listMax col - listMin col, (listMin col, listMax col)))
        let top := ranges.foldl (fun best r => if best.2.1 < r.2.1 then r else best)
          (ranges.headD ("", (0, (0, 0))))
        SwingCat.mk top.1 top.2.2.1 top.2.2.2
      else SwingCat.mk "N/A" 0 0
    else SwingCat.mk "N/A" 0 0
  let trend := if 2 ≤ monthsCount then
      let recent := meanQ (monthly.drop (monthsCount - 3))
      let earlier := meanQ (monthly.take 3)
      if earlier * (11/10) < recent then "Gradually rising"
      else if recent < earlier * (9/10) then "Gradually declining"
      else "Stable"
    else "Insufficient data"
  let monthlySpending := if 0 < monthsCount then meanQ monthly else 0
  let incomeMonthly := monthlySums ((absTable df).filter fun t => t.catLower == "income")
  let monthlyIncome := if 0 < incomeMonthly.length then meanQ incomeMonthly else 0
  let savingsRate := if 0 < monthlyIncome
    then round1 ((monthlyIncome - monthlySpending) / monthlyIncome * 100) else 0
  ⟨totalSpent, monthly, monthsCount, monthlyAvg, highest, lowest,
   (if 3 ≤ monthsCount then recent3 else monthlyAvg), trend, swing,
   round2 monthlyIncome, round2 monthlySpending, savingsRate⟩

/-- The zero-valued profile returned for an empty table
(orchestrator.py lines 151-162). -/
def zeroProfile : Profile :=
  ⟨0, 0, 0, [], false, "N/A", "N/A", 0, [], 0, 0, ⟨0, "N/A"⟩, ⟨0, "N/A"⟩, 0,
   "Insufficient data", ⟨"N/A", 0, 0⟩, 0, 0, 0⟩

/-- Source `df["category"].dropna()` filtered against income/transfer/empty, then
`.unique().tolist()` (pandas `unique` preserves first-occurrence order). -/
def profileCategories (df : List Txn) : List String :=
  uniqKeys ((df.filterMap Txn.category).filter fun c =>
    !(strLower c == "income" || strLower c == "transfer" || strLower c == ""))

/-- Source `profile_data` (orchestrator.py lines 149-193). -/
def profileData (df : List Txn) : Profile :=
  if df.isEmpty then zeroProfile
  else
    let days := df.map fun t => t.date.toDays
    let spanDays := intListMax days - intListMin days
    let cats := profileCategories df
    let hasIncome := df.any fun t => t.catLower == "income"
    let minDate := df.foldl (fun best t => if t.date.toDays < best.toDays then t.date else best)
      ((df.headD ⟨⟨0, 1, 1⟩, 0, "", none⟩).date)
    let maxDate := df.foldl (fun best t => if best.toDays < t.date.toDays then t.date else best)
      ((df.headD ⟨⟨0, 1, 1⟩, 0, "", none⟩).date)
    let m := computeSpendingMetrics df
    ⟨df.length, spanDays, cats.length, cats, hasIncome, isoDate minDate, isoDate maxDate,
     m.total_spent, m.monthly_totals, m.months_count, m.monthly_average, m.highest_month,
     m.lowest_month, m.recent_3mo_avg, m.spending_trend, m.biggest_swing_category,
     m.monthly_income, m.monthly_spending, m.savings_rate⟩

/-! ### Agent/orchestrator.py — analysis planner -/

/-- One row of `TOOL_REQUIREMENTS`; `none` models an absent dict key
(`reqs.get(key, 0)` defaults it to 0 in `plan_analysis`). -/
structure ToolReq where
  min_days : Option ℕ
  min_categories : Option ℕ
  min_transactions : Option ℕ
deriving DecidableEq

/-- Source `TOOL_REQUIREMENTS` (orchestrator.py lines 26-33). -/
def TOOL_REQUIREMENTS : List (String × ToolReq) :=
  [("temporal_patterns", ⟨some 90, some 0, none⟩),
   ("anomaly_detection", ⟨some 0, some 0, none⟩),
   ("subscription_hunter", ⟨some 0, some 0, some 100⟩),
   ("correlation_engine", ⟨some 90, some 3, none⟩),
   ("spending_impact", ⟨some 180, some 5, none⟩),
   ("financial_resilience", ⟨some 90, some 3, none⟩)]

def msgDays (md : ℕ) (have_ : ℤ) : String :=
  "Need " ++ toString md ++ "+ days, have " ++ toString have_

def msgCats (mc : ℕ) (have_ : ℕ) : String :=
  "Need " ++ toString mc ++ "+ categories, have " ++ toString have_

def msgTxns (mt : ℕ) (have_ : ℕ) : String :=
  "Need " ++ toString mt ++ "+ transactions, have " ++ toString have_

/-- One entry of the plan's `tools` list; `priorityOpt = none` models an
absent `"priority"` key (set only for enabled tools). -/
structure PlanEntry where
  name : String
  enabled : Bool
  reason : String
  priorityOpt : Option ℕ
deriving DecidableEq

/-- The gate-checking loop body of `plan_analysis` (orchestrator.py lines
205-233): each unmet gate overwrites `enabled`/`reason` in order
min_days, min_categories, min_transactions. -/
def planTool (p : Profile) (name : String) (reqs : ToolReq) : PlanEntry :=
  let md := reqs.min_days.getD 0
  let s1 : Bool × String :=
    if p.date_range_days < md then (false, msgDays md p.date_range_days) else (true, "")
  let mc := reqs.min_categories.getD 0
  let s2 := if p.category_count < mc then (false, msgCats mc p.category_count) else s1
  let mt := reqs.min_transactions.getD 0
  let s3 := if p.transaction_count < mt then (false, msgTxns mt p.transaction_count) else s2
  ⟨name, s3.1, if s3.1 then "requirements met" else s3.2, none⟩

/-- Source `PRIORITY` (orchestrator.py lines 236-240). -/
def PRIORITY : List (String × ℕ) :=
  [("anomaly_detection", 1), ("subscription_hunter", 2), ("temporal_patterns", 3),
   ("spending_impact", 4), ("correlation_engine", 5), ("financial_resilience", 6)]

def priorityOf (n : String) : ℕ := (PRIORITY.lookup n).getD 99

/-- The Python sort key `(not enabled, priority or 99)`. -/
def entryKey (e : PlanEntry) : ℕ × ℕ :=
  (if e.enabled then 0 else 1, e.priorityOpt.getD 99)

/-- Lexicographic ≤ on pairs, as Python compares key tuples. -/
def pairLexLE (a b : ℕ × ℕ) : Prop := a.1 < b.1 ∨ (a.1 = b.1 ∧ a.2 ≤ b.2)

def entryLE (a b : PlanEntry) : Prop := pairLexLE (entryKey a) (entryKey b)

instance : DecidableRel pairLexLE := fun a b =>
  inferInstanceAs (Decidable (a.1 < b.1 ∨ (a.1 = b.1 ∧ a.2 ≤ b.2)))

instance : DecidableRel entryLE := fun a b =>
  inferInstanceAs (Decidable (pairLexLE (entryKey a) (entryKey b)))

structure Plan where
  tools : List PlanEntry
deriving DecidableEq

/-- Source `plan_analysis` (orchestrator.py lines 201-254): evaluate every
requirement row, tag enabled tools with their display priority, and sort by
`(not enabled, priority)` (Python's stable sort = insertion sort here). -/
def planAnalysis (p : Profile) : Plan :=
  let tools := TOOL_REQUIREMENTS.map fun nr => planTool p nr.1 nr.2
  let tagged := tools.map fun t =>
    if t.enabled then { t with priorityOpt := some (priorityOf t.name) } else t
  ⟨tagged.insertionSort entryLE⟩

/-! ### Agent/orchestrator.py — plan executor -/

structure ExecRes where
  tools_run : List String
  tools_skipped : List (String × String)
deriving DecidableEq

/-- Source `execute_analysis_plan` (orchestrator.py lines 302-359), restricted to
the bookkeeping the claims are about.  Rows with missing/empty category are
dropped before tools see the table (line 309); the per-tool payloads are not
modeled, and `tools_run` does not depend on them because the executor
appends the tool's name on success and on exception alike (lines 337-347).
`tools_run` is listed in plan order; the source appends in thread-completion
(`as_completed`) order, an unspecified permutation of the same names. -/
def executeAnalysisPlan (df : List Txn) (plan : Plan) : ExecRes :=
  let _dfForTools := df.filter fun t => t.category ≠ none ∧ t.category ≠ some ""
  ⟨(plan.tools.filter (fun t => t.enabled)).map PlanEntry.name,
   (plan.tools.filter (fun t => !t.enabled)).map fun t => (t.name, t.reason)⟩

/-! ### Agent/synthesizer.py — fact-checking -/

/-- An insight record, with the fields the fact-checker reads/writes. -/
structure Insight where
  title : String
  description : String
  dollar_impact : ℚ
  confidence : String
  tool_source : String
deriving DecidableEq

/-- One `detect_subscription_overlap` group (field read by the
fact-checker). -/
structure OverlapEntry where
  category : String
  combined_annual : ℚ
deriving DecidableEq

/-- One `detect_price_creep` result; `annual_cost_increase = none` models
the key being absent (no creep detected). -/
structure PriceCreepEntry where
  merchant : String
  annual_cost_increase : Option ℚ
deriving DecidableEq

/-- One entry of `fit_impact_model`'s `impacts` list (field read by the
fact-checker). -/
structure ImpactEntry where
  category : String
  monthly_avg : ℚ
deriving DecidableEq

/-- The `subscription_hunter` slot of the tool-results dict. -/
structure SubHunterOut where
  recurring : List RecurringCharge
  price_creep : List PriceCreepEntry
  overlaps : List OverlapEntry
deriving DecidableEq

/-- The tool-results dict as read by `_extract_known_amounts`; `none` models
a missing slot (tool skipped or errored), for which every `.get` chain in
the source yields a falsy value. -/
structure ToolResults where
  subscription_hunter : Option SubHunterOut
  spending_impact : Option (List ImpactEntry)
deriving DecidableEq

/-- Source `_extract_known_amounts` (synthesizer.py lines 480-510).  Python's
truthiness test `if x.get(key)` keeps exactly the non-zero present values. -/
def extractKnownAmounts (tr : ToolResults) : List ℚ :=
  let subAmounts := match tr.subscription_hunter with
    | none => []
    | some s =>
      ((s.recurring.map RecurringCharge.annual_cost).filter (· ≠ 0)) ++
      ((s.overlaps.map OverlapEntry.combined_annual).filter (· ≠ 0)) ++
      (s.price_creep.filterMap fun pc =>
        match pc.annual_cost_increase with
        | some v => if v ≠ 0 then some v else none
        | none => none)
  let impactAmounts := match tr.spending_impact with
    | none => []
    | some l => ((l.map ImpactEntry.monthly_avg).filter (fun a => 0 < a)).map (· * 12)
  subAmounts ++ impactAmounts

/-- The per-insight body of `_fact_check_dollar_impacts` (synthesizer.py
lines 456-475). -/
def factCheckOne (known : List ℚ) (ins : Insight) : Insight :=
  if ins.tool_source == "cross_reference" then ins
  else if ins.dollar_impact = 0 then ins
  else if known ≠ [] ∧ listMax known * 2 < ins.dollar_impact then
    { ins with dollar_impact := listMax known, confidence := "MEDIUM" }
  else ins

/-- Source `_fact_check_dollar_impacts` (synthesizer.py lines 446-477). -/
def factCheckDollarImpacts (insights : List Insight) (tr : ToolResults) : List Insight :=
  insights.map (factCheckOne (extractKnownAmounts tr))

/-! ### Helper lemmas: rounding -/

theorem pyRound_ge_floor (q : ℚ) : ⌊q⌋ ≤ pyRound q := by
  simp only [pyRound]
  split_ifs <;> omega

theorem pyRound_le_floor_add_one (q : ℚ) : pyRound q ≤ ⌊q⌋ + 1 := by
  simp only [pyRound]
  split_ifs <;> omega

theorem pyRound_mono {q r : ℚ} (h : q ≤ r) : pyRound q ≤ pyRound r := by
  rcases lt_or_le ⌊q⌋ ⌊r⌋ with hf | hf
  · calc pyRound q ≤ ⌊q⌋ + 1 := pyRound_le_floor_add_one q
      _ ≤ ⌊r⌋ := hf
      _ ≤ pyRound r := pyRound_ge_floor r
  · have hfe : ⌊q⌋ = ⌊r⌋ := le_antisymm (Int.floor_le_floor h) hf
    have hq : (⌊q⌋ : ℚ) ≤ q := Int.floor_le q
    simp only [pyRound]
    rw [hfe]
    split_ifs <;> first | omega | linarith [hfe ▸ hq]

theorem pyRound_nonneg {q : ℚ} (h : 0 ≤ q) : 0 ≤ pyRound q :=
  le_trans (Int.floor_nonneg.mpr h) (pyRound_ge_floor q)

theorem round2_mono {q r : ℚ} (h : q ≤ r) : round2 q ≤ round2 r := by
  unfold round2
  have h2 : pyRound (q * 100) ≤ pyRound (r * 100) := pyRound_mono (by linarith)
  exact (div_le_div_iff_of_pos_right (by norm_num)).mpr (by exact_mod_cast h2)

theorem round2_nonneg {q : ℚ} (h : 0 ≤ q) : 0 ≤ round2 q := by
  unfold round2
  have h2 : (0:ℤ) ≤ pyRound (q * 100) := pyRound_nonneg (by linarith)
  positivity

theorem round1_mono {q r : ℚ} (h : q ≤ r) : round1 q ≤ round1 r := by
  unfold round1
  have h2 : pyRound (q * 10) ≤ pyRound (r * 10) := pyRound_mono (by linarith)
  exact (div_le_div_iff_of_pos_right (by norm_num)).mpr (by exact_mod_cast h2)

theorem round1_nonneg {q : ℚ} (h : 0 ≤ q) : 0 ≤ round1 q := by
  unfold round1
  have h2 : (0:ℤ) ≤ pyRound (q * 10) := pyRound_nonneg (by linarith)
  positivity

/-! ### Helper lemmas: means and sums -/

theorem sum_nonneg_of_mem {l : List ℚ} (h : ∀ x ∈ l, 0 ≤ x) : 0 ≤ l.sum :=
  List.sum_nonneg h

theorem meanQ_nonneg {l : List ℚ} (h : ∀ x ∈ l, 0 ≤ x) : 0 ≤ meanQ l :=
  div_nonneg (List.sum_nonneg h) (Nat.cast_nonneg _)

theorem monthSum_nonneg {df : List Txn} (h : ∀ t ∈ df, 0 ≤ t.amount) (k : ℤ) :
    0 ≤ monthSum df k := by
  apply List.sum_nonneg
  intro x hx
  obtain ⟨t, ht, rfl⟩ := List.mem_map.mp hx
  exact h t (List.mem_of_mem_filter ht)

theorem monthlySums_nonneg {df : List Txn} (h : ∀ t ∈ df, 0 ≤ t.amount) :
    ∀ x ∈ monthlySums df, 0 ≤ x := by
  intro x hx
  obtain ⟨k, _, rfl⟩ := List.mem_map.mp hx
  exact monthSum_nonneg h k

theorem getMonthlyIncome_nonneg {df : List Txn} (h : ∀ t ∈ df, 0 ≤ t.amount) :
    0 ≤ getMonthlyIncome df := by
  simp only [getMonthlyIncome]
  split_ifs with h1
  · exact le_refl 0
  · apply meanQ_nonneg
    apply monthlySums_nonneg
    intro t ht
    exact h t (List.mem_of_mem_filter ht)

/-! ### Helper lemmas: crossover non-negativity -/

theorem findCrossoverGo_nonneg (l : List ℚ) :
    ∀ (i : ℕ) (prev : ℚ), 0 ≤ prev → 0 ≤ findCrossoverGo i prev l := by
  induction l with
  | nil => intro i prev _; simp [findCrossoverGo]
  | cons v rest ih =>
    intro i prev hprev
    simp only [findCrossoverGo]
    split_ifs with h1 h2
    · have hpos : 0 < prev - v := by linarith
      exact add_nonneg (Nat.cast_nonneg i) (div_nonneg hprev (le_of_lt hpos))
    · exact Nat.cast_nonneg i
    · exact ih (i + 1) v (le_of_not_lt h1)

theorem findCrossover_nonneg (l : List ℚ) : 0 ≤ findCrossover l := by
  cases l with
  | nil => simp [findCrossover]
  | cons v rest =>
    simp only [findCrossover]
    split_ifs with h1
    · exact le_refl 0
    · exact findCrossoverGo_nonneg rest 1 v (le_of_not_lt h1)

/-! ### Helper lemmas: percentile monotonicity -/

theorem getD_eq_elem (s : List ℚ) (d : ℚ) {i : ℕ} (h : i < s.length) :
    s.getD i d = s[i] := by
  simp [List.getD_eq_getElem?_getD, List.getElem?_eq_getElem h]

theorem getD_eq_dflt (s : List ℚ) (d : ℚ) {i : ℕ} (h : s.length ≤ i) :
    s.getD i d = d := by
  simp [List.getD_eq_getElem?_getD, List.getElem?_eq_none h]

theorem sorted_getD_le (s : List ℚ) (hs : s.Sorted (· ≤ ·)) (i j : ℕ) (d e : ℚ)
    (hij : i ≤ j) (hj : j < s.length) : s.getD i d ≤ s.getD j e := by
  have hi : i < s.length := lt_of_le_of_lt hij hj
  rw [getD_eq_elem s d hi, getD_eq_elem s e hj]
  rcases eq_or_lt_of_le hij with rfl | hlt
  · exact le_refl _
  · have := hs.rel_get_of_lt (a := ⟨i, hi⟩) (b := ⟨j, hj⟩) hlt
    simpa [List.get_eq_getElem] using this

theorem getD_succ_ge (s : List ℚ) (hs : s.Sorted (· ≤ ·)) (i : ℕ) :
    s.getD i 0 ≤ s.getD (i + 1) (s.getD i 0) := by
  by_cases h : i + 1 < s.length
  · exact sorted_getD_le s hs i (i + 1) 0 _ (by omega) h
  · rw [getD_eq_dflt s (s.getD i 0) (i := i + 1) (by omega)]

theorem interpSorted_nil (pos : ℚ) : interpSorted [] pos = 0 := by
  simp [interpSorted]

theorem interpSorted_mono (s : List ℚ) (hs : s.Sorted (· ≤ ·)) {pos pos' : ℚ}
    (h0 : 0 ≤ pos) (hle : pos ≤ pos') (hup : pos' ≤ (s.length : ℚ) - 1) :
    interpSorted s pos ≤ interpSorted s pos' := by
  have h0' : 0 ≤ pos' := le_trans h0 hle
  have hlen : 1 ≤ s.length := by
    by_contra hc
    push_neg at hc
    have h00 : s.length = 0 := by omega
    rw [h00] at hup
    norm_num at hup
    linarith
  have hfq : (0:ℤ) ≤ ⌊pos⌋ := Int.floor_nonneg.mpr h0
  have hfq' : (0:ℤ) ≤ ⌊pos'⌋ := Int.floor_nonneg.mpr h0'
  have hff : ⌊pos⌋ ≤ ⌊pos'⌋ := Int.floor_le_floor hle
  have hi'bound : ⌊pos'⌋ ≤ (s.length : ℤ) - 1 := by
    have h1 : ((⌊pos'⌋ : ℤ) : ℚ) ≤ (((s.length : ℤ) - 1 : ℤ) : ℚ) := by
      push_cast
      linarith [Int.floor_le pos']
    exact_mod_cast h1
  have hfr0 : 0 ≤ pos - (⌊pos⌋ : ℚ) := by linarith [Int.floor_le pos]
  have hfr1 : pos - (⌊pos⌋ : ℚ) < 1 := by linarith [Int.lt_floor_add_one pos]
  have hfr0' : 0 ≤ pos' - (⌊pos'⌋ : ℚ) := by linarith [Int.floor_le pos']
  unfold interpSorted
  set i := ⌊pos⌋.toNat with hi_def
  set i' := ⌊pos'⌋.toNat with hi'_def
  have hii' : i ≤ i' := by omega
  have hi'n : i' < s.length := by omega
  rcases eq_or_lt_of_le hii' with heq | hlt
  · have hfeq : ⌊pos⌋ = ⌊pos'⌋ := by omega
    rw [← heq, ← hfeq]
    have hx := getD_succ_ge s hs i
    have hmul : (pos - (⌊pos⌋:ℚ)) * (s.getD (i+1) (s.getD i 0) - s.getD i 0) ≤
        (pos' - (⌊pos⌋:ℚ)) * (s.getD (i+1) (s.getD i 0) - s.getD i 0) :=
      mul_le_mul_of_nonneg_right (by linarith) (by linarith)
    linarith
  · have h1n : i + 1 ≤ i' := hlt
    have hx := getD_succ_ge s hs i
    have step1 : s.getD i 0 + (pos - (⌊pos⌋:ℚ)) *
        (s.getD (i+1) (s.getD i 0) - s.getD i 0) ≤ s.getD (i+1) (s.getD i 0) := by
      have hm : (pos - (⌊pos⌋:ℚ)) * (s.getD (i+1) (s.getD i 0) - s.getD i 0) ≤
          1 * (s.getD (i+1) (s.getD i 0) - s.getD i 0) :=
        mul_le_mul_of_nonneg_right (le_of_lt hfr1) (by linarith)
      linarith
    have step2 : s.getD (i+1) (s.getD i 0) ≤ s.getD i' 0 :=
      sorted_getD_le s hs (i+1) i' _ 0 h1n hi'n
    have hx' := getD_succ_ge s hs i'
    have step3 : s.getD i' 0 ≤ s.getD i' 0 + (pos' - (⌊pos'⌋:ℚ)) *
        (s.getD (i'+1) (s.getD i' 0) - s.getD i' 0) := by
      have hm : 0 ≤ (pos' - (⌊pos'⌋:ℚ)) * (s.getD (i'+1) (s.getD i' 0) - s.getD i' 0) :=
        mul_nonneg hfr0' (by linarith)
      linarith
    linarith

theorem npPercentile_mono (xs : List ℚ) {p q : ℚ} (hp : 0 ≤ p) (hpq : p ≤ q)
    (hq : q ≤ 100) : npPercentile p xs ≤ npPercentile q xs := by
  unfold npPercentile
  have hsorted : (xs.insertionSort (· ≤ ·)).Sorted (· ≤ ·) :=
    List.sorted_insertionSort _ xs
  set s := xs.insertionSort (· ≤ ·) with hs_def
  rcases List.eq_nil_or_concat s with hnil | ⟨_, _, hne⟩
  · rw [hnil]
    rw [interpSorted_nil, interpSorted_nil]
  · have hlen : 1 ≤ s.length := by
      rw [hne]
      simp
    have hn1 : (0:ℚ) ≤ (s.length : ℚ) - 1 := by
      have : (1:ℚ) ≤ (s.length : ℚ) := by exact_mod_cast hlen
      linarith
    apply interpSorted_mono s hsorted
    · exact mul_nonneg (div_nonneg hp (by norm_num)) hn1
    · exact mul_le_mul_of_nonneg_right
        ((div_le_div_iff_of_pos_right (by norm_num)).mpr hpq) hn1
    · calc q / 100 * ((s.length : ℚ) - 1) ≤ 1 * ((s.length : ℚ) - 1) :=
          mul_le_mul_of_nonneg_right (by linarith) hn1
        _ = (s.length : ℚ) - 1 := one_mul _

theorem pctList_getD (months : ℕ) (p : ℚ) (rows : List (List ℚ)) (t : ℕ) :
    (pctList months p rows).getD t 0 =
      if t < months then round2 (npPercentile p (matrixColumn rows t)) else 0 := by
  unfold pctList
  by_cases ht : t < months
  · rw [if_pos ht, getD_eq_elem _ _ (by simpa using ht)]
    simp
  · rw [if_neg ht, getD_eq_dflt _ _ (by simpa using le_of_not_lt ht)]

theorem pctList_mono (months : ℕ) (rows : List (List ℚ)) {p q : ℚ} (hp : 0 ≤ p)
    (hpq : p ≤ q) (hq : q ≤ 100) (t : ℕ) :
    (pctList months p rows).getD t 0 ≤ (pctList months q rows).getD t 0 := by
  rw [pctList_getD, pctList_getD]
  by_cases ht : t < months
  · simp only [if_pos ht]
    exact round2_mono (npPercentile_mono _ hp hpq hq)
  · simp [if_neg ht]

/-! ### Claim C9 -/

/-- Claim C9: for every projection produced by `run_projection` and every
simulated month index, the reported percentiles satisfy `p10 ≤ p50 ≤ p90`
in both the `monthly_net` and `cumulative_net` bands, whatever the random
draws were. -/
theorem projection_percentile_ordering (df : List Txn) (months : ℕ)
    (samples : List (List (List ℚ))) (scen : Option Scen) (r : ProjRes)
    (h : runProjection df months samples scen = some r) (t : ℕ) :
    (r.monthly_net.p10.getD t 0 ≤ r.monthly_net.p50.getD t 0 ∧
     r.monthly_net.p50.getD t 0 ≤ r.monthly_net.p90.getD t 0) ∧
    (r.cumulative_net.p10.getD t 0 ≤ r.cumulative_net.p50.getD t 0 ∧
     r.cumulative_net.p50.getD t 0 ≤ r.cumulative_net.p90.getD t 0) := by
  simp only [runProjection] at h
  split at h
  · exact absurd h (by simp)
  · rw [Option.some.injEq] at h
    subst h
    simp only [bandsOf]
    exact ⟨⟨pctList_mono months _ (by norm_num) (by norm_num) (by norm_num) t,
           pctList_mono months _ (by norm_num) (by norm_num) (by norm_num) t⟩,
          ⟨pctList_mono months _ (by norm_num) (by norm_num) (by norm_num) t,
           pctList_mono months _ (by norm_num) (by norm_num) (by norm_num) t⟩⟩

/-! ### Claim C5 -/

def RunwayVal.Nonneg : RunwayVal → Prop
  | .fin q => 0 ≤ q
  | .inf => True

theorem getMonthlySpending_nonneg {df : List Txn} (h : ∀ t ∈ df, 0 ≤ t.amount) :
    0 ≤ getMonthlySpending df := by
  simp only [getMonthlySpending]
  split_ifs with h1
  · exact le_refl 0
  · apply meanQ_nonneg
    apply monthlySums_nonneg
    intro t ht
    exact h t (List.mem_of_mem_filter ht)

/-- Claim C5: on a transaction table with non-negative amounts (the data
model's invariant), `calculate_runway` never returns a negative
months-of-runway; with zero average monthly income and positive average
monthly spending it returns exactly 0; and with non-negative net (income
minus spending) it returns the infinite sentinel. -/
theorem runway_spec (df : List Txn) (samples : List (List (List ℚ)))
    (hamt : ∀ t ∈ df, 0 ≤ t.amount) :
    (calculateRunway df samples).months_of_runway.Nonneg ∧
    (getMonthlyIncome df = 0 → 0 < getMonthlySpending df →
      (calculateRunway df samples).months_of_runway = .fin 0) ∧
    (0 ≤ getMonthlyIncome df - getMonthlySpending df →
      (calculateRunway df samples).months_of_runway = .inf) := by
  have hinc : 0 ≤ getMonthlyIncome df := getMonthlyIncome_nonneg hamt
  simp only [calculateRunway]
  split_ifs with h1 h2 h3
  · refine ⟨by simp [RunwayVal.Nonneg], fun _ _ => rfl, fun hnet => ?_⟩
    obtain ⟨hi0, hsp⟩ := h1
    rw [hi0] at hnet
    exfalso
    linarith
  · exact ⟨trivial, fun hi0 hsp => absurd ⟨hi0, hsp⟩ h1, fun _ => rfl⟩
  · cases hproj : runProjection df 36 samples none with
    | none =>
      simp only [hproj]
      refine ⟨?_, fun hi0 hsp2 => absurd ⟨hi0, hsp2⟩ h1, fun h0 => absurd h0 h2⟩
      simp only [RunwayVal.Nonneg]
      exact round1_nonneg
        (mul_nonneg (div_nonneg hinc (le_of_lt h3)) (by norm_num))
    | some proj =>
      simp only [hproj]
      exact ⟨round1_nonneg (findCrossover_nonneg _),
             fun hi0 hsp2 => absurd ⟨hi0, hsp2⟩ h1, fun h0 => absurd h0 h2⟩
  · exfalso
    push_neg at h2 h3
    linarith

/-- Witness for C5 at the empty table: no amounts to bound, income 0 and
spending 0 give non-negative net, so the infinite sentinel is returned. -/
theorem runway_spec_witness :
    (calculateRunway [] []).months_of_runway = .inf ∧
    (calculateRunway [] []).months_of_runway.Nonneg := by
  have h := runway_spec [] [] (by simp)
  refine ⟨h.2.2 ?_, h.1⟩
  simp [getMonthlyIncome, getMonthlySpending, spendFilter]

/-! ### Claims C1, C2, C3: the analysis planner -/

/-- The reason message of the last-checked gate that fails (check order in
`plan_analysis`: min_days, then min_categories, then min_transactions; each
unmet gate overwrites `reason`). -/
def lastUnmetMsg (p : Profile) (r : ToolReq) : String :=
  if p.transaction_count < r.min_transactions.getD 0 then
    msgTxns (r.min_transactions.getD 0) p.transaction_count
  else if p.category_count < r.min_categories.getD 0 then
    msgCats (r.min_categories.getD 0) p.category_count
  else msgDays (r.min_days.getD 0) p.date_range_days

/-- "The reason names an unmet gate": it is the message of one of the three
gates, and that gate really is unmet. -/
def reasonNamesUnmetGate (p : Profile) (r : ToolReq) (reason : String) : Prop :=
  (reason = msgDays (r.min_days.getD 0) p.date_range_days ∧
    p.date_range_days < r.min_days.getD 0) ∨
  (reason = msgCats (r.min_categories.getD 0) p.category_count ∧
    p.category_count < r.min_categories.getD 0) ∨
  (reason = msgTxns (r.min_transactions.getD 0) p.transaction_count ∧
    p.transaction_count < r.min_transactions.getD 0)

theorem str_append_ne_empty (s t : String) (hs : s ≠ "") : (s ++ t) ≠ "" := by
  intro h
  apply hs
  have hlen := congrArg String.length h
  rw [String.length_append] at hlen
  have h0 : s.length = 0 := by
    have : String.length "" = 0 := rfl
    omega
  exact String.ext (List.length_eq_zero.mp h0)

theorem msgDays_ne_empty (a : ℕ) (b : ℤ) : msgDays a b ≠ "" :=
  str_append_ne_empty _ _ (str_append_ne_empty _ _ (str_append_ne_empty _ _ (by decide)))

theorem msgCats_ne_empty (a b : ℕ) : msgCats a b ≠ "" :=
  str_append_ne_empty _ _ (str_append_ne_empty _ _ (str_append_ne_empty _ _ (by decide)))

theorem msgTxns_ne_empty (a b : ℕ) : msgTxns a b ≠ "" :=
  str_append_ne_empty _ _ (str_append_ne_empty _ _ (str_append_ne_empty _ _ (by decide)))

/-- Field-level description of one gate-check: the entry's name, the
enabled-iff-all-gates-met equivalence, and the disabled reason being the
last unmet gate's message. -/
theorem planTool_spec (p : Profile) (n : String) (r : ToolReq) :
    (planTool p n r).name = n ∧
    ((planTool p n r).enabled = true ↔
      ((r.min_days.getD 0 : ℤ) ≤ p.date_range_days ∧
       r.min_categories.getD 0 ≤ p.category_count ∧
       r.min_transactions.getD 0 ≤ p.transaction_count)) ∧
    ((planTool p n r).enabled = false →
      (planTool p n r).reason = lastUnmetMsg p r) := by
  simp only [planTool, lastUnmetMsg]
  split_ifs with h1 h2 h3 <;> simp_all

theorem lastUnmetMsg_names (p : Profile) (r : ToolReq)
    (h : ¬ ((r.min_days.getD 0 : ℤ) ≤ p.date_range_days ∧
            r.min_categories.getD 0 ≤ p.category_count ∧
            r.min_transactions.getD 0 ≤ p.transaction_count)) :
    reasonNamesUnmetGate p r (lastUnmetMsg p r) := by
  unfold lastUnmetMsg reasonNamesUnmetGate
  split_ifs with h1 h2
  · exact Or.inr (Or.inr ⟨rfl, h1⟩)
  · exact Or.inr (Or.inl ⟨rfl, h2⟩)
  · push_neg at h h1 h2
    exact Or.inl ⟨rfl, by omega⟩

theorem lastUnmetMsg_ne_empty (p : Profile) (r : ToolReq) : lastUnmetMsg p r ≠ "" := by
  unfold lastUnmetMsg
  split_ifs
  · exact msgTxns_ne_empty _ _
  · exact msgCats_ne_empty _ _
  · exact msgDays_ne_empty _ _

/-- Every plan entry arises from one row of the requirement table, with its
priority tag applied. -/
theorem mem_planAnalysis {p : Profile} {e : PlanEntry}
    (he : e ∈ (planAnalysis p).tools) :
    ∃ nr ∈ TOOL_REQUIREMENTS,
      e = (if (planTool p nr.1 nr.2).enabled then
            { planTool p nr.1 nr.2 with
              priorityOpt := some (priorityOf (planTool p nr.1 nr.2).name) }
          else planTool p nr.1 nr.2) := by
  simp only [planAnalysis] at he
  rw [List.mem_insertionSort, List.mem_map] at he
  obtain ⟨t, ht, rfl⟩ := he
  rw [List.mem_map] at ht
  obtain ⟨nr, hnr, rfl⟩ := ht
  exact ⟨nr, hnr, rfl⟩

theorem tag_name (t : PlanEntry) :
    ((if t.enabled then { t with priorityOpt := some (priorityOf t.name) } else t)
      : PlanEntry).name = t.name := by
  split_ifs <;> rfl

theorem tag_enabled (t : PlanEntry) :
    ((if t.enabled then { t with priorityOpt := some (priorityOf t.name) } else t)
      : PlanEntry).enabled = t.enabled := by
  split_ifs <;> rfl

theorem tag_reason (t : PlanEntry) :
    ((if t.enabled then { t with priorityOpt := some (priorityOf t.name) } else t)
      : PlanEntry).reason = t.reason := by
  split_ifs <;> rfl

/-- Claim C1: every plan entry is enabled iff all of its tool's declared
gates (defaulting to 0 when unspecified) are satisfied by the profile, and
every disabled entry carries a non-empty reason naming an unmet gate. -/
theorem planner_gate_iff (p : Profile) (e : PlanEntry)
    (he : e ∈ (planAnalysis p).tools) :
    ∃ r : ToolReq, (e.name, r) ∈ TOOL_REQUIREMENTS ∧
      (e.enabled = true ↔
        ((r.min_days.getD 0 : ℤ) ≤ p.date_range_days ∧
         r.min_categories.getD 0 ≤ p.category_count ∧
         r.min_transactions.getD 0 ≤ p.transaction_count)) ∧
      (e.enabled = false → e.reason ≠ "" ∧ reasonNamesUnmetGate p r e.reason) := by
  obtain ⟨nr, hnr, rfl⟩ := mem_planAnalysis he
  obtain ⟨hname, hiff, hreason⟩ := planTool_spec p nr.1 nr.2
  refine ⟨nr.2, ?_, ?_, ?_⟩
  · rw [tag_name, hname]
    exact hnr
  · rw [tag_enabled]
    exact hiff
  · rw [tag_enabled, tag_reason]
    intro hd
    rw [hreason hd]
    have hunmet : ¬ ((nr.2.min_days.getD 0 : ℤ) ≤ p.date_range_days ∧
        nr.2.min_categories.getD 0 ≤ p.category_count ∧
        nr.2.min_transactions.getD 0 ≤ p.transaction_count) := by
      intro hc
      rw [hiff.mpr hc] at hd
      simp at hd
    exact ⟨lastUnmetMsg_ne_empty p nr.2, lastUnmetMsg_names p nr.2 hunmet⟩

/-- Witness for C1: the `anomaly_detection` entry of the zero profile's
plan, whose requirement row is all-zero and therefore satisfied. -/
theorem planner_gate_iff_witness :
    ∃ r : ToolReq, (("anomaly_detection", r) ∈ TOOL_REQUIREMENTS) ∧
      (true = true ↔
        ((r.min_days.getD 0 : ℤ) ≤ zeroProfile.date_range_days ∧
         r.min_categories.getD 0 ≤ zeroProfile.category_count ∧
         r.min_transactions.getD 0 ≤ zeroProfile.transaction_count)) ∧
      (true = false → "requirements met" ≠ "" ∧
        reasonNamesUnmetGate zeroProfile r "requirements met") :=
  planner_gate_iff zeroProfile ⟨"anomaly_detection", true, "requirements met", some 1⟩
    (by decide)

/-- Counterexample for C2: on the empty table the planner does not disable
every tool (`anomaly_detection` has all-zero requirements and stays
enabled), and the executor's `tools_run` is not empty. -/
theorem empty_table_counterexample :
    (planAnalysis (profileData [])).tools.any (fun e => e.enabled) = true ∧
    (executeAnalysisPlan [] (planAnalysis (profileData []))).tools_run ≠ [] := by
  decide

/-- Amended C2: the profiler returns the defined zero profile on the empty
table; the planner disables every tool except `anomaly_detection`; the
executor reports exactly `anomaly_detection` as run and the other five as
skipped. -/
theorem empty_table_behavior :
    profileData [] = zeroProfile ∧
    ((planAnalysis (profileData [])).tools.map fun e => (e.name, e.enabled)) =
      [("anomaly_detection", true), ("temporal_patterns", false),
       ("subscription_hunter", false), ("correlation_engine", false),
       ("spending_impact", false), ("financial_resilience", false)] ∧
    (executeAnalysisPlan [] (planAnalysis (profileData []))).tools_run =
      ["anomaly_detection"] ∧
    (executeAnalysisPlan [] (planAnalysis (profileData []))).tools_skipped.length = 5 := by
  decide

/-- Counterexample for C3: for the zero profile, `correlation_engine` has
both its min_days gate (checked first) and its min_categories gate (checked
second) unmet, and the recorded reason is the message of the
min_categories gate — the last failing gate checked, not the first. -/
theorem planner_last_gate_counterexample :
    ∃ e ∈ (planAnalysis zeroProfile).tools,
      e.name = "correlation_engine" ∧ e.enabled = false ∧
      zeroProfile.date_range_days < 90 ∧ zeroProfile.category_count < 3 ∧
      e.reason ≠ msgDays 90 zeroProfile.date_range_days ∧
      e.reason = msgCats 3 zeroProfile.category_count := by
  decide

/-- Amended C3: for every profile, a disabled entry's reason is exactly the
message of the last gate checked that fails (check order min_days,
min_categories, min_transactions) — a single gate's message, never a merge
of several. -/
theorem planner_reason_last_gate (p : Profile) (e : PlanEntry)
    (he : e ∈ (planAnalysis p).tools) (hd : e.enabled = false) :
    ∃ r : ToolReq, (e.name, r) ∈ TOOL_REQUIREMENTS ∧ e.reason = lastUnmetMsg p r := by
  obtain ⟨nr, hnr, rfl⟩ := mem_planAnalysis he
  rw [tag_enabled] at hd
  obtain ⟨hname, _, hreason⟩ := planTool_spec p nr.1 nr.2
  refine ⟨nr.2, ?_, ?_⟩
  · rw [tag_name, hname]
    exact hnr
  · rw [tag_reason]
    exact hreason hd

/-- Witness for the amended C3 at the zero profile's `correlation_engine`
entry. -/
theorem planner_reason_last_gate_witness :
    ∃ r : ToolReq, (("correlation_engine", r) ∈ TOOL_REQUIREMENTS) ∧
      "Need 3+ categories, have 0" = lastUnmetMsg zeroProfile r :=
  planner_reason_last_gate zeroProfile
    ⟨"correlation_engine", false, "Need 3+ categories, have 0", none⟩
    (by decide) rfl

/-! ### Claim C4: fact-checking of dollar impacts -/

/-- HIGH > MEDIUM > LOW, for talking about confidence downgrades. -/
def confRank (c : String) : ℕ :=
  if c == "HIGH" then 2 else if c == "MEDIUM" then 1 else 0

def cx4Insight : Insight := ⟨"t", "d", 100, "LOW", "llm"⟩

def cx4Sub : SubHunterOut :=
  ⟨[⟨"NETFLIX", some "Entertainment", "monthly", 15, 10, 10, 7/10, true, 2⟩], [], []⟩

def cx4Results : ToolResults := ⟨some cx4Sub, none⟩

unseal Rat.add Rat.mul Rat.sub Rat.inv in
/-- Counterexample for C4: a LOW-confidence text-generated insight whose
claimed impact (100) exceeds twice the only verifiable amount (10) is
capped to 10, but its confidence is set to `"MEDIUM"` — one level ABOVE
`"LOW"`, not a one-level downgrade (the source assigns the literal
`"MEDIUM"` unconditionally instead of moving one level down). -/
theorem fact_check_counterexample :
    extractKnownAmounts cx4Results = [10] ∧
    cx4Insight.confidence = "LOW" ∧
    cx4Insight.dollar_impact = 100 ∧
    ((factCheckDollarImpacts [cx4Insight] cx4Results).headD cx4Insight).dollar_impact = 10 ∧
    ((factCheckDollarImpacts [cx4Insight] cx4Results).headD cx4Insight).confidence = "MEDIUM" ∧
    confRank cx4Insight.confidence <
      confRank ((factCheckDollarImpacts [cx4Insight] cx4Results).headD cx4Insight).confidence := by
  decide

/-- Amended C4: an insight whose source is not `cross_reference`, with a
non-zero claimed impact strictly greater than twice the maximum verifiable
amount, gets its stored impact set to exactly that maximum and its
confidence set to the literal `"MEDIUM"` (a one-level downgrade only when
it was HIGH); `cross_reference` and zero-impact insights pass through
unchanged; and the fact-checker is exactly this map over the insight
list. -/
theorem fact_check_cap_spec (tr : ToolResults) (ins : Insight) :
    (ins.tool_source ≠ "cross_reference" → ins.dollar_impact ≠ 0 →
      extractKnownAmounts tr ≠ [] →
      listMax (extractKnownAmounts tr) * 2 < ins.dollar_impact →
      factCheckOne (extractKnownAmounts tr) ins =
        { ins with dollar_impact := listMax (extractKnownAmounts tr),
                   confidence := "MEDIUM" }) ∧
    (ins.tool_source = "cross_reference" →
      factCheckOne (extractKnownAmounts tr) ins = ins) ∧
    (ins.dollar_impact = 0 → factCheckOne (extractKnownAmounts tr) ins = ins) ∧
    (∀ insights : List Insight,
      factCheckDollarImpacts insights tr =
        insights.map (factCheckOne (extractKnownAmounts tr))) := by
  refine ⟨?_, ?_, ?_, fun _ => rfl⟩
  · intro hsrc himp hne hcap
    unfold factCheckOne
    rw [if_neg (by simpa using hsrc), if_neg himp, if_pos ⟨hne, hcap⟩]
  · intro hsrc
    unfold factCheckOne
    rw [if_pos (by simpa using hsrc)]
  · intro himp
    unfold factCheckOne
    by_cases hsrc : ins.tool_source == "cross_reference"
    · rw [if_pos hsrc]
    · rw [if_neg hsrc, if_pos himp]

unseal Rat.add Rat.mul Rat.sub Rat.inv in
/-- Witness for the amended C4: a HIGH-confidence insight with impact 100
against a single verifiable amount of 10 is capped to 10 and set to
MEDIUM. -/
theorem fact_check_cap_spec_witness :
    factCheckOne (extractKnownAmounts cx4Results) ⟨"t", "d", 100, "HIGH", "llm"⟩ =
      ⟨"t", "d", 10, "MEDIUM", "llm"⟩ := by
  have h := (fact_check_cap_spec cx4Results ⟨"t", "d", 100, "HIGH", "llm"⟩).1
    (by decide) (by decide) (by decide) (by decide)
  rw [h]
  decide

/-! ### Claim C6: subscription-purge compounding -/

unseal Rat.add Rat.mul Rat.sub Rat.inv in
/-- Counterexample for C6 at monthly savings m = 300, horizon 1 year: the
stored compounded value is NOT the ordinary-annuity future value
`m * ((1 + 0.04/12)^12 - 1) / (0.04/12)` — neither exactly nor after cent
rounding.  (The loop deposits at the start of each month, an annuity-due:
one extra factor of `1 + 0.04/12`, about $4 on $1222.) -/
theorem purge_compound_counterexample :
    round2 (compoundedTotal 300 12) ≠
      300 * (((1 + (4/100)/12)^(12:ℕ) - 1) / ((4/100)/12)) ∧
    round2 (compoundedTotal 300 12) ≠
      round2 (300 * (((1 + (4/100)/12)^(12:ℕ) - 1) / ((4/100)/12))) := by
  decide

/-- Amended C6: the compounding loop computes the annuity-due future value —
the ordinary-annuity formula times one extra monthly growth factor
`1 + 0.04/12` — and the three stored horizons are its cent-rounded values at
12, 36 and 60 months of the purge's monthly savings. -/
theorem purge_compound_spec :
    (∀ (m : ℚ) (k : ℕ), compoundedTotal m k =
      m * (((1 + (4/100)/12)^k - 1) / ((4/100)/12)) * (1 + (4/100)/12)) ∧
    (∀ (df : List Txn) (samples : List (List (List ℚ))),
      (stressSubscriptionPurge df samples).compounded_1yr =
        round2 (compoundedTotal
          ((discretionarySubs (detectRecurringCharges df)).map
            RecurringCharge.amount).sum 12) ∧
      (stressSubscriptionPurge df samples).compounded_3yr =
        round2 (compoundedTotal
          ((discretionarySubs (detectRecurringCharges df)).map
            RecurringCharge.amount).sum 36) ∧
      (stressSubscriptionPurge df samples).compounded_5yr =
        round2 (compoundedTotal
          ((discretionarySubs (detectRecurringCharges df)).map
            RecurringCharge.amount).sum 60)) := by
  constructor
  · intro m k
    induction k with
    | zero => simp [compoundedTotal]
    | succ n ih =>
      rw [compoundedTotal, ih]
      field_simp
      ring
  · intro df samples
    exact ⟨rfl, rfl, rfl⟩

/-! ### Claim C7: job-loss categories to cut -/

def cx7df : List Txn :=
  [⟨⟨2024, 1, 5⟩, 100, "A", some "Dining"⟩,
   ⟨⟨2024, 1, 6⟩, 90, "B", some "Shopping"⟩,
   ⟨⟨2024, 1, 7⟩, 80, "C", some "Entertainment"⟩,
   ⟨⟨2024, 1, 8⟩, 70, "D", some "Travel"⟩]

unseal Rat.add Rat.mul Rat.sub Rat.inv in
/-- Counterexample for C7: a one-month table with four non-essential
categories, each averaging at least $20 a month, yields four
categories-to-cut entries — the source truncates at 5 (`[:5]`), not at 3. -/
theorem job_loss_cuts_counterexample :
    (jobLossCategoriesToCut cx7df).length = 4 ∧
    ¬ ((jobLossCategoriesToCut cx7df).length ≤ 3) := by
  decide

/-- Amended C7: `categories_to_cut` holds at most 5 entries (not 3), each a
non-essential category with monthly average at least $20, ranked by monthly
average descending, with `potential_savings` the cent-rounded 50% of that
category's (unrounded) monthly average. -/
theorem job_loss_cuts_spec (df : List Txn) :
    (jobLossCategoriesToCut df).length ≤ 5 ∧
    (jobLossCategoriesToCut df).Pairwise (fun a b => b.monthly_avg ≤ a.monthly_avg) ∧
    ∀ e ∈ jobLossCategoriesToCut df,
      ¬ (strLower e.category ∈ ESSENTIAL_CATEGORIES) ∧
      20 ≤ catAvg df e.category ∧
      e.monthly_avg = round2 (catAvg df e.category) ∧
      e.potential_savings = round2 (catAvg df e.category * (5/10)) := by
  have hsorted :
      (((uniqKeys ((spendFilter df).map (fun t => t.category.getD ""))).map
        (fun c => (c, catAvg df c))).insertionSort
          (fun a b => b.2 ≤ a.2)).Pairwise (fun (a b : String × ℚ) => b.2 ≤ a.2) :=
    @List.sorted_insertionSort (String × ℚ) (fun a b => b.2 ≤ a.2)
      (fun _ _ => inferInstance) ⟨fun a b => le_total b.2 a.2⟩
      ⟨fun _ _ _ h1 h2 => le_trans h2 h1⟩ _
  refine ⟨?_, ?_, ?_⟩
  · simp only [jobLossCategoriesToCut]
    exact List.length_take_le 5 _
  · simp only [jobLossCategoriesToCut]
    apply List.Pairwise.sublist (List.take_sublist _ _)
    rw [List.pairwise_map]
    apply List.Pairwise.sublist (List.filter_sublist _)
    exact hsorted.imp fun h => round2_mono h
  · intro e he
    simp only [jobLossCategoriesToCut] at he
    have he2 := List.mem_of_mem_take he
    rw [List.mem_map] at he2
    obtain ⟨ca, hca, rfl⟩ := he2
    rw [List.mem_filter] at hca
    obtain ⟨hmem, hcond⟩ := hca
    rw [List.mem_insertionSort, List.mem_map] at hmem
    obtain ⟨c, _, rfl⟩ := hmem
    simp only [Bool.and_eq_true, Bool.not_eq_true', decide_eq_false_iff_not,
      not_lt] at hcond
    exact ⟨hcond.1, hcond.2, rfl, rfl⟩

unseal Rat.add Rat.mul Rat.sub Rat.inv in
/-- Witness for the amended C7 at `cx7df`'s top entry. -/
theorem job_loss_cuts_spec_witness :
    ¬ (strLower "Dining" ∈ ESSENTIAL_CATEGORIES) ∧
    20 ≤ catAvg cx7df "Dining" ∧
    (100 : ℚ) = round2 (catAvg cx7df "Dining") ∧
    (50 : ℚ) = round2 (catAvg cx7df "Dining" * (5/10)) :=
  (job_loss_cuts_spec cx7df).2.2 ⟨"Dining", 100, 50⟩ (by decide)

/-! ### Claim C8: fitted distributions' std -/

def cx8df : List Txn :=
  [⟨⟨2024, 1, 15⟩, 1599/100, "NETFLIX", some "Entertainment"⟩,
   ⟨⟨2024, 2, 14⟩, 1599/100, "NETFLIX", some "Entertainment"⟩]

def cx8recurring : List RecurringCharge :=
  [⟨"NETFLIX", some "Entertainment", "monthly", 15, 1599/100, 19188/100, 7/10, true, 2⟩]

unseal Rat.add Rat.mul Rat.sub Rat.inv in
/-- Counterexample for C8: a category whose whole monthly mean is covered by
a detected recurring charge gets adjusted mean 0, and the fallback
"std = 10% of mean" is then 0 — no positive floor is substituted, so the
distribution's std is NOT strictly positive. -/
theorem distribution_std_counterexample :
    ((buildCategoryDistributions cx8df cx8recurring).1.map fun cd => (cd.1, cd.2.stdSq)) =
      [("Entertainment", 0)] ∧
    ¬ (0 < ((buildCategoryDistributions cx8df cx8recurring).1.headD
        ("", ⟨0, 0⟩)).2.stdSq) := by
  decide

/-- Amended C8: every fitted distribution has strictly positive std UNLESS
its recurring-adjusted mean is zero, in which case the fallback yields
exactly std = 0 (`std² > 0 ∨ (std² = 0 ∧ mean = 0)`). -/
theorem distribution_std_spec (df : List Txn) (recurring : List RecurringCharge) :
    ∀ cd ∈ (buildCategoryDistributions df recurring).1,
      0 < cd.2.stdSq ∨ (cd.2.stdSq = 0 ∧ cd.2.mean = 0) := by
  intro cd hcd
  simp only [buildCategoryDistributions] at hcd
  rw [List.mem_filterMap] at hcd
  obtain ⟨cat, hcat, hsome⟩ := hcd
  by_cases hskip : strLower cat ∈ ["income", "transfer"]
  · rw [if_pos hskip] at hsome
    simp at hsome
  · rw [if_neg hskip, Option.some.injEq] at hsome
    subst hsome
    dsimp only
    split_ifs with hmain
    · exact Or.inl hmain.2
    · set a := max 0 (meanQ (pivotColumn (spendFilter df) (monthsOf (spendFilter df)) cat) -
        recurringByCat recurring cat) with ha_def
      have ha : 0 ≤ a := le_max_left 0 _
      rcases eq_or_lt_of_le ha with heq | hpos
      · right
        rw [← heq]
        norm_num
      · left
        have h1 : 0 < a * (1/10) := mul_pos hpos (by norm_num)
        exact mul_pos h1 h1

def cx8bdf : List Txn := [⟨⟨2024, 1, 5⟩, 100, "X", some "Dining"⟩]

unseal Rat.add Rat.mul Rat.sub Rat.inv in
/-- Witness for the amended C8: a single $100 "Dining" month with no
recurring charges produces adjusted mean 100 and fallback std² = 100 > 0. -/
theorem distribution_std_spec_witness :
    0 < (100 : ℚ) ∨ ((100 : ℚ) = 0 ∧ (100 : ℚ) = 0) :=
  distribution_std_spec cx8bdf [] ("Dining", ⟨100, 100⟩) (by decide)

/-! ### Claim C10: recurring-charge invariants -/

/-- What the per-merchant detection guards guarantee about a produced
entry. -/
theorem detectForMerchant_some {df : List Txn} {m : String} {e : RecurringCharge}
    (h : detectForMerchant df m = some e) :
    e.merchant = m ∧
    (e.frequency = "monthly" ∨ e.frequency = "yearly" ∨ e.frequency = "biweekly") ∧
    2 ≤ e.n_charges ∧
    e.n_charges = (merchantGroup df m).length ∧
    3 ≤ meanQ ((merchantGroup df m).map Txn.amount) ∧
    e.amount = round2 (meanQ ((merchantGroup df m).map Txn.amount)) ∧
    400 * sampleVar ((merchantGroup df m).map Txn.amount) ≤
      49 * (meanQ ((merchantGroup df m).map Txn.amount) *
            meanQ ((merchantGroup df m).map Txn.amount)) := by
  simp only [detectForMerchant] at h
  split_ifs at h with c1 c2 c3 c4 c5 c6 <;> try exact Option.noConfusion h
  all_goals dsimp only at h
  all_goals split_ifs at h with c7 c8 <;> try exact Option.noConfusion h
  all_goals rw [Option.some.injEq] at h
  all_goals subst h
  all_goals refine ⟨rfl, by simp, by dsimp only; omega, rfl, le_of_not_lt c2, rfl, ?_⟩
  all_goals push_neg at c3
  all_goals exact c3 (by linarith [le_of_not_lt c2])

theorem recurring_invariants (df : List Txn) :
    (detectRecurringCharges df).Pairwise (fun a b => b.annual_cost ≤ a.annual_cost) ∧
    ∀ e ∈ detectRecurringCharges df,
      (e.frequency = "monthly" ∨ e.frequency = "yearly" ∨ e.frequency = "biweekly") ∧
      2 ≤ e.n_charges ∧
      e.n_charges = (merchantGroup df e.merchant).length ∧
      3 ≤ meanQ ((merchantGroup df e.merchant).map Txn.amount) ∧
      e.amount = round2 (meanQ ((merchantGroup df e.merchant).map Txn.amount)) ∧
      400 * sampleVar ((merchantGroup df e.merchant).map Txn.amount) ≤
        49 * (meanQ ((merchantGroup df e.merchant).map Txn.amount) *
              meanQ ((merchantGroup df e.merchant).map Txn.amount)) := by
  constructor
  · simp only [detectRecurringCharges]
    exact @List.sorted_insertionSort RecurringCharge
      (fun a b => b.annual_cost ≤ a.annual_cost)
      (fun _ _ => inferInstance) ⟨fun a b => le_total b.annual_cost a.annual_cost⟩
      ⟨fun _ _ _ h1 h2 => le_trans h2 h1⟩ _
  · intro e he
    simp only [detectRecurringCharges] at he
    rw [List.mem_insertionSort, List.mem_filterMap] at he
    obtain ⟨m, _, hsome⟩ := he
    obtain ⟨hm, hrest⟩ := detectForMerchant_some hsome
    rw [← hm] at hrest
    exact hrest

def cx10df : List Txn :=
  [⟨⟨2024, 1, 15⟩, 1599/100, "NETFLIX", some "Entertainment"⟩,
   ⟨⟨2024, 2, 14⟩, 1599/100, "NETFLIX", some "Entertainment"⟩]

unseal Rat.add Rat.mul Rat.sub Rat.inv in
/-- Witness for C10: two identical monthly Netflix charges produce one
recurring entry satisfying every invariant. -/
theorem recurring_invariants_witness :
    (("monthly" : String) = "monthly" ∨ ("monthly" : String) = "yearly" ∨
      ("monthly" : String) = "biweekly") ∧
    2 ≤ 2 ∧
    2 = (merchantGroup cx10df "NETFLIX").length ∧
    3 ≤ meanQ ((merchantGroup cx10df "NETFLIX").map Txn.amount) ∧
    (1599/100 : ℚ) = round2 (meanQ ((merchantGroup cx10df "NETFLIX").map Txn.amount)) ∧
    400 * sampleVar ((merchantGroup cx10df "NETFLIX").map Txn.amount) ≤
      49 * (meanQ ((merchantGroup cx10df "NETFLIX").map Txn.amount) *
            meanQ ((merchantGroup cx10df "NETFLIX").map Txn.amount)) :=
  (recurring_invariants cx10df).2
    ⟨"NETFLIX", some "Entertainment", "monthly", 14, 1599/100, 19188/100, 7/10, true, 2⟩
    (by decide)

/-! ### Claim C9 witness -/

def cx9df : List Txn :=
  [⟨⟨2024, 1, 15⟩, 1599/100, "NETFLIX", some "Entertainment"⟩,
   ⟨⟨2024, 2, 14⟩, 1599/100, "NETFLIX", some "Entertainment"⟩]

/-- The concrete projection on `cx9df` with one simulated trial of one
month, drawing 5: income 0, fixed costs 15.99 from the detected Netflix
subscription, variable category fully recurring-adjusted to mean 0, so the
single monthly net is -(5 + 15.99) = -20.99 at every percentile. -/
def cx9proj : ProjRes :=
  { monthly_net := ⟨[-2099/100], [-2099/100], [-2099/100], [-2099/100], [-2099/100]⟩,
    cumulative_net := ⟨[-2099/100], [-2099/100], [-2099/100], [-2099/100], [-2099/100]⟩,
    baseline := ⟨0, 1599/100, 1599/100, 0⟩,
    scen_applied := none,
    has_income := false,
    n_sims := 1,
    months := 1 }

unseal Rat.add Rat.mul Rat.sub Rat.inv in
/-- Witness for C9 at the one-trial projection on `cx9df`. -/
theorem projection_percentile_ordering_witness :
    (cx9proj.monthly_net.p10.getD 0 0 ≤ cx9proj.monthly_net.p50.getD 0 0 ∧
     cx9proj.monthly_net.p50.getD 0 0 ≤ cx9proj.monthly_net.p90.getD 0 0) ∧
    (cx9proj.cumulative_net.p10.getD 0 0 ≤ cx9proj.cumulative_net.p50.getD 0 0 ∧
     cx9proj.cumulative_net.p50.getD 0 0 ≤ cx9proj.cumulative_net.p90.getD 0 0) :=
  projection_percentile_ordering cx9df 1 [[[5]]] none cx9proj (by decide) 0

end Sift
